import Mathlib

/-!
Verification of the provenance transaction integration layer
(`src/backend/src/core/BlockchainIntegration.ts`).

The orchestrator class `BlockchainIntegration` is embedded as pure
state-passing functions.  Its external collaborators — the key-pair
primitive (`getKeyPair`), the `Transaction` signing/hashing primitives,
the registered ledger handler, and the `TransactionHistoryService` —
are supplied as an environment of oracles, each of which may throw
(modelled with `Except`).  Every observable side effect of a call
(handler invocations, History Store writes, reconciliation log lines,
error log lines) is recorded in an explicit `Trace`, so that the
behavioural properties of the layer can be stated over arbitrary
collaborator behaviour.
-/

namespace AgriChain

/-- The key-pair capability returned by `getKeyPair`; opaque to the
integration layer, which only passes it to `getPublic("hex")` and
`transaction.sign`.  Represented by an abstract identifier. -/
abbrev KeyPair := String

/-- The `UserRole` enum from `../enum`; opaque to the integration layer,
which only forwards roles to the History Store. -/
abbrev UserRole := String

/-- The `details` argument of a transfer.  The integration layer reads
exactly one field, `details.toPublicKey` (line 131); the remainder is
an opaque payload. -/
structure TransferDetails where
  toPublicKey : Option String
  rest : String := ""
deriving DecidableEq

/-- The typed `data` payload placed in the constructed `Transaction`
by each of the three operations (lines 59-63, 137-143, 214-220). -/
inductive TxData where
  | create (productId : String) (details : String)
  | transfer (productId fromUserId toUserId : String) (details : TransferDetails)
  | verify (productId verifierId : String) (verificationPassed : Bool) (details : String)
deriving DecidableEq

/-- The unsigned content of a `Transaction`: `from`, `to` and `data`
as passed to the `Transaction` constructor. -/
structure TxCore where
  txFrom : String
  txTo : String
  data : TxData
deriving DecidableEq

/-- A `Transaction` after `transaction.sign(keyPair)`: the core content
plus the signature produced by the signing primitive. -/
structure SignedTx where
  core : TxCore
  signature : String
deriving DecidableEq

/-- The result shape of the `TransactionHistoryService.recordProduct*`
methods as consumed by the integration layer:
`{success, transactionId?}`. -/
structure HistResult where
  success : Bool
  transactionId : Option String
deriving DecidableEq

/-- The declared result type of the three public operations:
`{ success: boolean; transactionHash?: string; blockHash?: string }`. -/
structure OpResult where
  success : Bool
  transactionHash : Option String := none
  blockHash : Option String := none
deriving DecidableEq

/-- One invocation of a History Store write method, with the arguments
the integration layer passes (lines 75-79, 155-162, 232-238). -/
inductive HistWrite where
  | create (productId fromUserId : String) (productData : String)
  | transfer (productId fromUserId : String) (fromRole : UserRole)
      (toUserId : String) (toRole : UserRole) (details : TransferDetails)
  | verify (productId verifierId : String) (verifierRole : UserRole)
      (passed : Bool) (details : String)
deriving DecidableEq

/-- The observable side effects of one call.
`handlerCalls` — invocations of the registered ledger handler;
`histWrites` — invocations of History Store write methods;
`reconLogs` — the `(transactionId, blockHash, transactionHash)` triples
logged by `updateTransactionWithBlockchainInfo` (lines 278-279);
`storeUpdates` — invocations of any History-Store record-mutating
operation: the source interface in use (recordProduct*, getTransaction)
has none and the source invokes none, so nothing ever appends here;
`errLogs` — count of `console.error` diagnostics. -/
structure Trace where
  handlerCalls : List SignedTx := []
  histWrites : List HistWrite := []
  reconLogs : List (String × String × String) := []
  storeUpdates : List (String × String × String) := []
  errLogs : Nat := 0
deriving DecidableEq

/-- The environment of external collaborators, each specified only at
its interface.  Collaborators that can throw return `Except`. -/
structure Env where
  /-- the primitive `getKeyPair(privateKey)` from `utils/keypair`; may throw on bad key material. -/
  getKeyPair : String → Except String KeyPair
  /-- the call `keyPair.getPublic("hex")`. -/
  pubHex : KeyPair → String
  /-- the signature produced by `transaction.sign(keyPair)`. -/
  signTx : KeyPair → TxCore → String
  /-- the value of `transaction.getHash()` on the signed transaction; deterministic. -/
  hashTx : SignedTx → String
  /-- the registered ledger handler, or `null` if none was registered. -/
  handler : Option (SignedTx → Except String Bool)
  /-- the method `TransactionHistoryService.recordProductCreation`. -/
  histCreate : String → String → String → Except String HistResult
  /-- the method `TransactionHistoryService.recordProductTransfer`. -/
  histTransfer : String → String → UserRole → String → UserRole → TransferDetails →
    Except String HistResult
  /-- the method `TransactionHistoryService.recordProductVerification`. -/
  histVerify : String → String → UserRole → Bool → String → Except String HistResult
  /-- the method `TransactionHistoryService.getTransaction`; returns the record or
  `null`, or throws. -/
  getTransaction : String → Except String (Option String)

/-- Line 131: `details.toPublicKey || "default_public_key_for_" + toUserId`.
JavaScript `||` falls back when the field is absent or the empty string. -/
def resolveToPublicKey (details : TransferDetails) (toUserId : String) : String :=
  match details.toPublicKey with
  | some s => if s == "" then "default_public_key_for_" ++ toUserId else s
  | none => "default_public_key_for_" ++ toUserId

/-- The signed transaction built by `recordProductCreation` (lines 56-67):
`from` and `to` are both the public key derived from the private key. -/
def creationTx (env : Env) (keyPair : KeyPair) (productId productData : String) :
    SignedTx :=
  let fromPublicKey := env.pubHex keyPair
  let core : TxCore :=
    { txFrom := fromPublicKey, txTo := fromPublicKey
      data := .create productId productData }
  { core := core, signature := env.signTx keyPair core }

/-- The signed transaction built by `recordProductTransfer` (lines 126-147). -/
def transferTx (env : Env) (keyPair : KeyPair)
    (productId fromUserId toUserId : String) (details : TransferDetails) :
    SignedTx :=
  let core : TxCore :=
    { txFrom := env.pubHex keyPair
      txTo := resolveToPublicKey details toUserId
      data := .transfer productId fromUserId toUserId details }
  { core := core, signature := env.signTx keyPair core }

/-- The signed transaction built by `recordProductVerification`
(lines 207-224): `from` and `to` are both the verifier public key. -/
def verificationTx (env : Env) (keyPair : KeyPair)
    (productId verifierId : String) (passed : Bool) (details : String) :
    SignedTx :=
  let fromPublicKey := env.pubHex keyPair
  let core : TxCore :=
    { txFrom := fromPublicKey, txTo := fromPublicKey
      data := .verify productId verifierId passed details }
  { core := core, signature := env.signTx keyPair core }

/-- The helper `updateTransactionWithBlockchainInfo` (lines 266-286): fetches the
history record; if present, logs the blockchain data (a self-described
workaround — no store update exists); if absent, logs an error; its own
`try/catch` absorbs a throwing `getTransaction` into an error log.  The
function never throws and returns no value: it only produces effects. -/
def updateTransactionWithBlockchainInfo (env : Env)
    (transactionId blockHash transactionHash : String) (tr : Trace) : Trace :=
  match env.getTransaction transactionId with
  | .ok (some _) =>
      { tr with reconLogs := tr.reconLogs ++ [(transactionId, blockHash, transactionHash)] }
  | .ok none => { tr with errLogs := tr.errLogs + 1 }
  | .error _ => { tr with errLogs := tr.errLogs + 1 }

/-- The operation `recordProductCreation` (lines 44-102).  The outer `try/catch` turns
any throw from a collaborator into `{success: false}` plus a
`console.error`; effects performed before the throw persist. -/
def recordProductCreation (env : Env)
    (productId fromUserId privateKey productData : String) (tr : Trace) :
    OpResult × Trace :=
  match env.getKeyPair privateKey with
  | .error _ => ({ success := false }, { tr with errLogs := tr.errLogs + 1 })
  | .ok keyPair =>
    let transaction := creationTx env keyPair productId productData
    match env.handler with
    | none => ({ success := false }, tr)
    | some handle =>
      let tr1 := { tr with handlerCalls := tr.handlerCalls ++ [transaction] }
      match handle transaction with
      | .error _ => ({ success := false }, { tr1 with errLogs := tr1.errLogs + 1 })
      | .ok false => ({ success := false }, tr1)
      | .ok true =>
        let tr2 := { tr1 with
          histWrites := tr1.histWrites ++ [.create productId fromUserId productData] }
        match env.histCreate productId fromUserId productData with
        | .error _ => ({ success := false }, { tr2 with errLogs := tr2.errLogs + 1 })
        | .ok historyResult =>
          match historyResult.transactionId with
          | none => ({ success := false }, tr2)
          | some transactionId =>
            -- `historyResult.success && historyResult.transactionId`:
            -- the identifier must be truthy, i.e. a non-empty string
            if historyResult.success && !(transactionId == "") then
              let th := env.hashTx transaction
              let tr3 := updateTransactionWithBlockchainInfo env transactionId "pending" th tr2
              ({ success := true, transactionHash := some th }, tr3)
            else ({ success := false }, tr2)

/-- The operation `recordProductTransfer` (lines 115-185); identical protocol, with
the recipient resolved by `resolveToPublicKey` and roles forwarded to
the History Store. -/
def recordProductTransfer (env : Env)
    (productId fromUserId toUserId : String) (fromRole toRole : UserRole)
    (privateKey : String) (details : TransferDetails) (tr : Trace) :
    OpResult × Trace :=
  match env.getKeyPair privateKey with
  | .error _ => ({ success := false }, { tr with errLogs := tr.errLogs + 1 })
  | .ok keyPair =>
    let transaction := transferTx env keyPair productId fromUserId toUserId details
    match env.handler with
    | none => ({ success := false }, tr)
    | some handle =>
      let tr1 := { tr with handlerCalls := tr.handlerCalls ++ [transaction] }
      match handle transaction with
      | .error _ => ({ success := false }, { tr1 with errLogs := tr1.errLogs + 1 })
      | .ok false => ({ success := false }, tr1)
      | .ok true =>
        let tr2 := { tr1 with
          histWrites := tr1.histWrites ++
            [.transfer productId fromUserId fromRole toUserId toRole details] }
        match env.histTransfer productId fromUserId fromRole toUserId toRole details with
        | .error _ => ({ success := false }, { tr2 with errLogs := tr2.errLogs + 1 })
        | .ok historyResult =>
          match historyResult.transactionId with
          | none => ({ success := false }, tr2)
          | some transactionId =>
            if historyResult.success && !(transactionId == "") then
              let th := env.hashTx transaction
              let tr3 := updateTransactionWithBlockchainInfo env transactionId "pending" th tr2
              ({ success := true, transactionHash := some th }, tr3)
            else ({ success := false }, tr2)

/-- The operation `recordProductVerification` (lines 197-261); identical protocol. -/
def recordProductVerification (env : Env)
    (productId verifierId : String) (verifierRole : UserRole)
    (privateKey : String) (passed : Bool) (details : String) (tr : Trace) :
    OpResult × Trace :=
  match env.getKeyPair privateKey with
  | .error _ => ({ success := false }, { tr with errLogs := tr.errLogs + 1 })
  | .ok keyPair =>
    let transaction := verificationTx env keyPair productId verifierId passed details
    match env.handler with
    | none => ({ success := false }, tr)
    | some handle =>
      let tr1 := { tr with handlerCalls := tr.handlerCalls ++ [transaction] }
      match handle transaction with
      | .error _ => ({ success := false }, { tr1 with errLogs := tr1.errLogs + 1 })
      | .ok false => ({ success := false }, tr1)
      | .ok true =>
        let tr2 := { tr1 with
          histWrites := tr1.histWrites ++
            [.verify productId verifierId verifierRole passed details] }
        match env.histVerify productId verifierId verifierRole passed details with
        | .error _ => ({ success := false }, { tr2 with errLogs := tr2.errLogs + 1 })
        | .ok historyResult =>
          match historyResult.transactionId with
          | none => ({ success := false }, tr2)
          | some transactionId =>
            if historyResult.success && !(transactionId == "") then
              let th := env.hashTx transaction
              let tr3 := updateTransactionWithBlockchainInfo env transactionId "pending" th tr2
              ({ success := true, transactionHash := some th }, tr3)
            else ({ success := false }, tr2)

/-! ### Concrete collaborator environments used as test inputs -/

/-- An environment in which every collaborator succeeds: key derivation
works, the registered handler accepts every transaction, the History
Store write returns identifier `"TID"`, and the record is found. -/
def envAccept : Env where
  getKeyPair := fun _ => .ok "KP"
  pubHex := fun kp => "pub_" ++ kp
  signTx := fun _ _ => "SIG"
  hashTx := fun _ => "HASH"
  handler := some fun _ => .ok true
  histCreate := fun _ _ _ => .ok { success := true, transactionId := some "TID" }
  histTransfer := fun _ _ _ _ _ _ => .ok { success := true, transactionId := some "TID" }
  histVerify := fun _ _ _ _ _ => .ok { success := true, transactionId := some "TID" }
  getTransaction := fun _ => .ok (some "REC")

/-- Like `envAccept` but the registered handler rejects every transaction. -/
def envReject : Env := { envAccept with handler := some fun _ => .ok false }

/-- Like `envAccept` but no ledger handler is registered. -/
def envNoHandler : Env := { envAccept with handler := none }

/-- Like `envAccept` but every History Store write reports failure with
no identifier. -/
def envHistFail : Env :=
  { envAccept with
    histCreate := fun _ _ _ => .ok { success := false, transactionId := none }
    histTransfer := fun _ _ _ _ _ _ => .ok { success := false, transactionId := none }
    histVerify := fun _ _ _ _ _ => .ok { success := false, transactionId := none } }

/-- Like `envAccept` but key derivation throws. -/
def envKeyErr : Env := { envAccept with getKeyPair := fun _ => .error "bad key material" }

/-- Like `envAccept` but the registered handler throws. -/
def envHandlerThrow : Env := { envAccept with handler := some fun _ => .error "handler down" }

/-- Like `envAccept` but every History Store write throws. -/
def envHistThrow : Env :=
  { envAccept with
    histCreate := fun _ _ _ => .error "store down"
    histTransfer := fun _ _ _ _ _ _ => .error "store down"
    histVerify := fun _ _ _ _ _ => .error "store down" }

/-- Like `envAccept` but `getTransaction` throws during reconciliation. -/
def envReconThrow : Env := { envAccept with getTransaction := fun _ => .error "store down" }

/-- Like `envAccept` but the referenced record is absent during reconciliation. -/
def envReconMissing : Env := { envAccept with getTransaction := fun _ => .ok none }

example :
    recordProductCreation envAccept "P1" "U1" "K" "D" {} =
      ({ success := true, transactionHash := some "HASH" },
       { handlerCalls := [creationTx envAccept "KP" "P1" "D"]
         histWrites := [.create "P1" "U1" "D"]
         reconLogs := [("TID", "pending", "HASH")] }) := by decide

example :
    recordProductTransfer envReject "P1" "U1" "U2" "PRODUCER" "DISTRIBUTOR" "K"
      { toPublicKey := none } {} =
      ({ success := false },
       { handlerCalls := [transferTx envReject "KP" "P1" "U1" "U2" { toPublicKey := none }] }) := by
  decide

example :
    recordProductVerification envNoHandler "P1" "V1" "INSPECTOR" "K" true "D" {} =
      ({ success := false }, {}) := by decide

example :
    (recordProductCreation envHistFail "P1" "U1" "K" "D" {}).1 = { success := false } := by
  decide

/-! ### Helper lemmas -/

@[simp]
theorem updateInfo_handlerCalls (env : Env) (tid bh th : String) (tr : Trace) :
    (updateTransactionWithBlockchainInfo env tid bh th tr).handlerCalls = tr.handlerCalls := by
  unfold updateTransactionWithBlockchainInfo
  rcases env.getTransaction tid with m | o
  · rfl
  · rcases o with _ | r <;> rfl

@[simp]
theorem updateInfo_histWrites (env : Env) (tid bh th : String) (tr : Trace) :
    (updateTransactionWithBlockchainInfo env tid bh th tr).histWrites = tr.histWrites := by
  unfold updateTransactionWithBlockchainInfo
  rcases env.getTransaction tid with m | o
  · rfl
  · rcases o with _ | r <;> rfl

@[simp]
theorem updateInfo_storeUpdates (env : Env) (tid bh th : String) (tr : Trace) :
    (updateTransactionWithBlockchainInfo env tid bh th tr).storeUpdates = tr.storeUpdates := by
  unfold updateTransactionWithBlockchainInfo
  rcases env.getTransaction tid with m | o
  · rfl
  · rcases o with _ | r <;> rfl

/-- A History Store write performed by `recordProductCreation` is always
preceded by ledger acceptance of the constructed transaction. -/
theorem creation_histWrites_subset (env : Env)
    (productId fromUserId privateKey productData : String) (tr : Trace) :
    ((recordProductCreation env productId fromUserId privateKey productData tr).2).histWrites =
      tr.histWrites ∨
    (∃ handle keyPair, env.handler = some handle ∧
      env.getKeyPair privateKey = Except.ok keyPair ∧
      handle (creationTx env keyPair productId productData) = Except.ok true ∧
      ((recordProductCreation env productId fromUserId privateKey productData tr).2).histWrites =
        tr.histWrites ++ [HistWrite.create productId fromUserId productData]) := by
  unfold recordProductCreation
  rcases hgk : env.getKeyPair privateKey with m | keyPair
  · simp
  · rcases hh : env.handler with _ | handle
    · simp
    · rcases hch : handle (creationTx env keyPair productId productData) with m | b
      · simp [hch]
      · rcases b
        · simp [hch]
        · right
          refine ⟨handle, keyPair, rfl, rfl, hch, ?_⟩
          simp only [hch]
          rcases env.histCreate productId fromUserId productData with m | hr
          · simp
          · rcases hr with ⟨succ, tid⟩
            rcases tid with _ | tid
            · simp
            · by_cases hsucc : (succ && !(tid == "")) = true <;> simp [hsucc]

/-- A History Store write performed by `recordProductTransfer` is always
preceded by ledger acceptance of the constructed transaction. -/
theorem transfer_histWrites_subset (env : Env)
    (productId fromUserId toUserId : String) (fromRole toRole : UserRole)
    (privateKey : String) (details : TransferDetails) (tr : Trace) :
    ((recordProductTransfer env productId fromUserId toUserId fromRole toRole privateKey details tr).2).histWrites =
      tr.histWrites ∨
    (∃ handle keyPair, env.handler = some handle ∧
      env.getKeyPair privateKey = Except.ok keyPair ∧
      handle (transferTx env keyPair productId fromUserId toUserId details) = Except.ok true ∧
      ((recordProductTransfer env productId fromUserId toUserId fromRole toRole privateKey details tr).2).histWrites =
        tr.histWrites ++ [HistWrite.transfer productId fromUserId fromRole toUserId toRole details]) := by
  unfold recordProductTransfer
  rcases hgk : env.getKeyPair privateKey with m | keyPair
  · simp
  · rcases hh : env.handler with _ | handle
    · simp
    · rcases hch : handle (transferTx env keyPair productId fromUserId toUserId details) with m | b
      · simp [hch]
      · rcases b
        · simp [hch]
        · right
          refine ⟨handle, keyPair, rfl, rfl, hch, ?_⟩
          simp only [hch]
          rcases env.histTransfer productId fromUserId fromRole toUserId toRole details with m | hr
          · simp
          · rcases hr with ⟨succ, tid⟩
            rcases tid with _ | tid
            · simp
            · by_cases hsucc : (succ && !(tid == "")) = true <;> simp [hsucc]

/-- A History Store write performed by `recordProductVerification` is
always preceded by ledger acceptance of the constructed transaction. -/
theorem verification_histWrites_subset (env : Env)
    (productId verifierId : String) (verifierRole : UserRole)
    (privateKey : String) (passed : Bool) (details : String) (tr : Trace) :
    ((recordProductVerification env productId verifierId verifierRole privateKey passed details tr).2).histWrites =
      tr.histWrites ∨
    (∃ handle keyPair, env.handler = some handle ∧
      env.getKeyPair privateKey = Except.ok keyPair ∧
      handle (verificationTx env keyPair productId verifierId passed details) = Except.ok true ∧
      ((recordProductVerification env productId verifierId verifierRole privateKey passed details tr).2).histWrites =
        tr.histWrites ++ [HistWrite.verify productId verifierId verifierRole passed details]) := by
  unfold recordProductVerification
  rcases hgk : env.getKeyPair privateKey with m | keyPair
  · simp
  · rcases hh : env.handler with _ | handle
    · simp
    · rcases hch : handle (verificationTx env keyPair productId verifierId passed details) with m | b
      · simp [hch]
      · rcases b
        · simp [hch]
        · right
          refine ⟨handle, keyPair, rfl, rfl, hch, ?_⟩
          simp only [hch]
          rcases env.histVerify productId verifierId verifierRole passed details with m | hr
          · simp
          · rcases hr with ⟨succ, tid⟩
            rcases tid with _ | tid
            · simp
            · by_cases hsucc : (succ && !(tid == "")) = true <;> simp [hsucc]

/-! ### Claim theorems -/

/-- C1: for each of the three public operations, if the registered ledger
handler returns `false` for the submitted transaction, the operation
returns `{success: false}` and performs no History Store write; and (for
arbitrary collaborator behaviour) any History Store write an operation
does perform is preceded by ledger acceptance of the constructed
transaction, so history entries are a subset of ledger-accepted
transactions. -/
theorem C1_rejected_submission_writes_no_history (env : Env) (tr : Trace)
    (productId fromUserId toUserId verifierId privateKey productData vDetails : String)
    (fromRole toRole verifierRole : UserRole) (details : TransferDetails) (passed : Bool)
    (keyPair : KeyPair) (handle : SignedTx → Except String Bool)
    (hk : env.getKeyPair privateKey = Except.ok keyPair)
    (hh : env.handler = some handle)
    (hc : handle (creationTx env keyPair productId productData) = Except.ok false)
    (ht : handle (transferTx env keyPair productId fromUserId toUserId details) = Except.ok false)
    (hv : handle (verificationTx env keyPair productId verifierId passed vDetails) = Except.ok false) :
    ((recordProductCreation env productId fromUserId privateKey productData tr).1 =
        { success := false } ∧
      ((recordProductCreation env productId fromUserId privateKey productData tr).2).histWrites =
        tr.histWrites) ∧
    ((recordProductTransfer env productId fromUserId toUserId fromRole toRole privateKey details tr).1 =
        { success := false } ∧
      ((recordProductTransfer env productId fromUserId toUserId fromRole toRole privateKey details tr).2).histWrites =
        tr.histWrites) ∧
    ((recordProductVerification env productId verifierId verifierRole privateKey passed vDetails tr).1 =
        { success := false } ∧
      ((recordProductVerification env productId verifierId verifierRole privateKey passed vDetails tr).2).histWrites =
        tr.histWrites) ∧
    (((recordProductCreation env productId fromUserId privateKey productData tr).2).histWrites =
        tr.histWrites ∨
      (∃ handle keyPair, env.handler = some handle ∧
        env.getKeyPair privateKey = Except.ok keyPair ∧
        handle (creationTx env keyPair productId productData) = Except.ok true ∧
        ((recordProductCreation env productId fromUserId privateKey productData tr).2).histWrites =
          tr.histWrites ++ [HistWrite.create productId fromUserId productData])) ∧
    (((recordProductTransfer env productId fromUserId toUserId fromRole toRole privateKey details tr).2).histWrites =
        tr.histWrites ∨
      (∃ handle keyPair, env.handler = some handle ∧
        env.getKeyPair privateKey = Except.ok keyPair ∧
        handle (transferTx env keyPair productId fromUserId toUserId details) = Except.ok true ∧
        ((recordProductTransfer env productId fromUserId toUserId fromRole toRole privateKey details tr).2).histWrites =
          tr.histWrites ++ [HistWrite.transfer productId fromUserId fromRole toUserId toRole details])) ∧
    (((recordProductVerification env productId verifierId verifierRole privateKey passed vDetails tr).2).histWrites =
        tr.histWrites ∨
      (∃ handle keyPair, env.handler = some handle ∧
        env.getKeyPair privateKey = Except.ok keyPair ∧
        handle (verificationTx env keyPair productId verifierId passed vDetails) = Except.ok true ∧
        ((recordProductVerification env productId verifierId verifierRole privateKey passed vDetails tr).2).histWrites =
          tr.histWrites ++ [HistWrite.verify productId verifierId verifierRole passed vDetails])) := by
  refine ⟨?_, ?_, ?_,
    creation_histWrites_subset env productId fromUserId privateKey productData tr,
    transfer_histWrites_subset env productId fromUserId toUserId fromRole toRole privateKey details tr,
    verification_histWrites_subset env productId verifierId verifierRole privateKey passed vDetails tr⟩
  · unfold recordProductCreation
    simp [hk, hh, hc]
  · unfold recordProductTransfer
    simp [hk, hh, ht]
  · unfold recordProductVerification
    simp [hk, hh, hv]

/-- Witness for C1 at a concrete rejecting environment. -/
theorem C1_witness :
    (recordProductCreation envReject "P1" "U1" "K" "D" {}).1 = { success := false } ∧
    ((recordProductCreation envReject "P1" "U1" "K" "D" {}).2).histWrites = [] ∧
    (recordProductTransfer envReject "P1" "U1" "U2" "PRODUCER" "DISTRIBUTOR" "K"
        { toPublicKey := none } {}).1 = { success := false } ∧
    ((recordProductTransfer envReject "P1" "U1" "U2" "PRODUCER" "DISTRIBUTOR" "K"
        { toPublicKey := none } {}).2).histWrites = [] := by
  have h := C1_rejected_submission_writes_no_history envReject {} "P1" "U1" "U2" "V1" "K" "D" "VD"
    "PRODUCER" "DISTRIBUTOR" "INSPECTOR" { toPublicKey := none } true "KP"
    (fun _ => Except.ok false) rfl rfl rfl rfl rfl
  exact ⟨h.1.1, h.1.2, h.2.1.1, h.2.1.2⟩

/-- The History Store write outcomes the integration layer treats as
failed: reported failure, no identifier, or an empty (falsy) identifier. -/
def histRejects (hr : HistResult) : Prop :=
  hr.success = false ∨ hr.transactionId = none ∨ hr.transactionId = some ""

/-- C2 counterexample: with a registered handler that accepts every
transaction and a History Store whose write reports failure,
`recordProductCreation` returns `{success := false}` — not the
`{success: true, transactionHash}` the claim asserts. -/
theorem C2_counterexample :
    envHistFail.handler = some (fun _ => Except.ok true) ∧
    envHistFail.histCreate "P1" "U1" "D" =
      Except.ok { success := false, transactionId := none } ∧
    (recordProductCreation envHistFail "P1" "U1" "K" "D" {}).1 = { success := false } ∧
    ¬ (recordProductCreation envHistFail "P1" "U1" "K" "D" {}).1.success = true := by
  exact ⟨rfl, rfl, by decide, by decide⟩

/-- C2 (amended): for each of the three public operations, if the ledger
handler returns `true` but the History Store write fails (reports
failure, or returns no identifier, or an empty one), the operation
returns `{success: false}` — the downstream history failure masks
ledger-level success — and no reconciliation is performed. -/
theorem C2_amended_history_failure_masks_ledger_success (env : Env) (tr : Trace)
    (productId fromUserId toUserId verifierId privateKey productData vDetails : String)
    (fromRole toRole verifierRole : UserRole) (details : TransferDetails) (passed : Bool)
    (keyPair : KeyPair) (handle : SignedTx → Except String Bool)
    (hrC hrT hrV : HistResult)
    (hk : env.getKeyPair privateKey = Except.ok keyPair)
    (hh : env.handler = some handle)
    (hca : handle (creationTx env keyPair productId productData) = Except.ok true)
    (hta : handle (transferTx env keyPair productId fromUserId toUserId details) = Except.ok true)
    (hva : handle (verificationTx env keyPair productId verifierId passed vDetails) = Except.ok true)
    (hwc : env.histCreate productId fromUserId productData = Except.ok hrC)
    (hwt : env.histTransfer productId fromUserId fromRole toUserId toRole details = Except.ok hrT)
    (hwv : env.histVerify productId verifierId verifierRole passed vDetails = Except.ok hrV)
    (hbc : histRejects hrC) (hbt : histRejects hrT) (hbv : histRejects hrV) :
    ((recordProductCreation env productId fromUserId privateKey productData tr).1 =
        { success := false } ∧
      ((recordProductCreation env productId fromUserId privateKey productData tr).2).reconLogs =
        tr.reconLogs) ∧
    ((recordProductTransfer env productId fromUserId toUserId fromRole toRole privateKey details tr).1 =
        { success := false } ∧
      ((recordProductTransfer env productId fromUserId toUserId fromRole toRole privateKey details tr).2).reconLogs =
        tr.reconLogs) ∧
    ((recordProductVerification env productId verifierId verifierRole privateKey passed vDetails tr).1 =
        { success := false } ∧
      ((recordProductVerification env productId verifierId verifierRole privateKey passed vDetails tr).2).reconLogs =
        tr.reconLogs) := by
  refine ⟨?_, ?_, ?_⟩
  · unfold recordProductCreation
    rcases hrC with ⟨succ, tid⟩
    rcases hbc with h | h | h <;> simp only [histRejects] at h <;> subst h <;>
      first
        | (rcases tid with _ | tid <;> simp [hk, hh, hca, hwc])
        | simp [hk, hh, hca, hwc]
  · unfold recordProductTransfer
    rcases hrT with ⟨succ, tid⟩
    rcases hbt with h | h | h <;> simp only [histRejects] at h <;> subst h <;>
      first
        | (rcases tid with _ | tid <;> simp [hk, hh, hta, hwt])
        | simp [hk, hh, hta, hwt]
  · unfold recordProductVerification
    rcases hrV with ⟨succ, tid⟩
    rcases hbv with h | h | h <;> simp only [histRejects] at h <;> subst h <;>
      first
        | (rcases tid with _ | tid <;> simp [hk, hh, hva, hwv])
        | simp [hk, hh, hva, hwv]

/-- Witness for the amended C2 at a concrete environment with an
accepting handler and a failing History Store write. -/
theorem C2_witness :
    (recordProductCreation envHistFail "P1" "U1" "K" "D" {}).1 = { success := false } ∧
    (recordProductVerification envHistFail "P1" "V1" "INSPECTOR" "K" true "VD" {}).1 =
      { success := false } := by
  have h := C2_amended_history_failure_masks_ledger_success envHistFail {} "P1" "U1" "U2" "V1"
    "K" "D" "VD" "PRODUCER" "DISTRIBUTOR" "INSPECTOR" { toPublicKey := none } true "KP"
    (fun _ => Except.ok true) { success := false, transactionId := none }
    { success := false, transactionId := none } { success := false, transactionId := none }
    rfl rfl rfl rfl rfl rfl rfl rfl (Or.inl rfl) (Or.inl rfl) (Or.inl rfl)
  exact ⟨h.1.1, h.2.2.1⟩

/-- C3: evidence at a fully successful creation call.  The operation
returns `{success: true}` with `transactionHash` equal to the hash of
the constructed transaction, and the reconciliation step is invoked
with `blockHash = "pending"` and that same hash — but it only logs the
triple (the source calls it a workaround): no History-Store
record-mutating operation is invoked, so the History Record never
receives `blockHash = "pending"` or the transaction hash from this
layer. -/
theorem C3_reconciliation_only_logs :
    envAccept.hashTx (creationTx envAccept "KP" "P1" "D") = "HASH" ∧
    (recordProductCreation envAccept "P1" "U1" "K" "D" {}).1 =
      { success := true, transactionHash := some "HASH" } ∧
    ((recordProductCreation envAccept "P1" "U1" "K" "D" {}).2).reconLogs =
      [("TID", "pending", "HASH")] ∧
    ((recordProductCreation envAccept "P1" "U1" "K" "D" {}).2).storeUpdates = [] := by
  exact ⟨rfl, by decide, by decide, by decide⟩

/-- C4: for each of the three public operations, if no ledger handler is
registered, the operation returns `{success: false}` (no exception: the
embedding is a total function), performs no History Store write, and
never invokes a handler — identical to the rejection outcome of C1. -/
theorem C4_no_handler_is_silent_rejection (env : Env) (tr : Trace)
    (productId fromUserId toUserId verifierId privateKey productData vDetails : String)
    (fromRole toRole verifierRole : UserRole) (details : TransferDetails) (passed : Bool)
    (hh : env.handler = none) :
    ((recordProductCreation env productId fromUserId privateKey productData tr).1 =
        { success := false } ∧
      ((recordProductCreation env productId fromUserId privateKey productData tr).2).histWrites =
        tr.histWrites ∧
      ((recordProductCreation env productId fromUserId privateKey productData tr).2).handlerCalls =
        tr.handlerCalls) ∧
    ((recordProductTransfer env productId fromUserId toUserId fromRole toRole privateKey details tr).1 =
        { success := false } ∧
      ((recordProductTransfer env productId fromUserId toUserId fromRole toRole privateKey details tr).2).histWrites =
        tr.histWrites ∧
      ((recordProductTransfer env productId fromUserId toUserId fromRole toRole privateKey details tr).2).handlerCalls =
        tr.handlerCalls) ∧
    ((recordProductVerification env productId verifierId verifierRole privateKey passed vDetails tr).1 =
        { success := false } ∧
      ((recordProductVerification env productId verifierId verifierRole privateKey passed vDetails tr).2).histWrites =
        tr.histWrites ∧
      ((recordProductVerification env productId verifierId verifierRole privateKey passed vDetails tr).2).handlerCalls =
        tr.handlerCalls) := by
  refine ⟨?_, ?_, ?_⟩
  · unfold recordProductCreation
    rcases env.getKeyPair privateKey with m | keyPair <;> simp [hh]
  · unfold recordProductTransfer
    rcases env.getKeyPair privateKey with m | keyPair <;> simp [hh]
  · unfold recordProductVerification
    rcases env.getKeyPair privateKey with m | keyPair <;> simp [hh]

/-- Witness for C4 at a concrete environment with no registered handler. -/
theorem C4_witness :
    (recordProductCreation envNoHandler "P1" "U1" "K" "D" {}).1 = { success := false } ∧
    ((recordProductCreation envNoHandler "P1" "U1" "K" "D" {}).2).histWrites = [] ∧
    (recordProductVerification envNoHandler "P1" "V1" "INSPECTOR" "K" true "VD" {}).1 =
      { success := false } := by
  have h := C4_no_handler_is_silent_rejection envNoHandler {} "P1" "U1" "U2" "V1" "K" "D" "VD"
    "PRODUCER" "DISTRIBUTOR" "INSPECTOR" { toPublicKey := none } true rfl
  exact ⟨h.1.1, h.1.2.1, h.2.2.1⟩

/-- Every result of `recordProductCreation` has one of the two shapes
`{success := false}` or `{success := true, transactionHash := some th}`. -/
theorem creation_result_shape (env : Env)
    (productId fromUserId privateKey productData : String) (tr : Trace) :
    (recordProductCreation env productId fromUserId privateKey productData tr).1 =
      { success := false } ∨
    ∃ th, (recordProductCreation env productId fromUserId privateKey productData tr).1 =
      { success := true, transactionHash := some th } := by
  unfold recordProductCreation
  rcases env.getKeyPair privateKey with m | keyPair
  · simp
  · rcases env.handler with _ | handle
    · simp
    · rcases hch : handle (creationTx env keyPair productId productData) with m | b
      · simp [hch]
      · rcases b
        · simp [hch]
        · rcases hhw : env.histCreate productId fromUserId productData with m | hr
          · simp [hch, hhw]
          · rcases hr with ⟨succ, tid⟩
            rcases tid with _ | tid
            · simp [hch, hhw]
            · by_cases hs : (succ && !(tid == "")) = true <;> simp [hch, hhw, hs]

/-- Every result of `recordProductTransfer` has one of the two shapes
`{success := false}` or `{success := true, transactionHash := some th}`. -/
theorem transfer_result_shape (env : Env)
    (productId fromUserId toUserId : String) (fromRole toRole : UserRole)
    (privateKey : String) (details : TransferDetails) (tr : Trace) :
    (recordProductTransfer env productId fromUserId toUserId fromRole toRole privateKey details tr).1 =
      { success := false } ∨
    ∃ th, (recordProductTransfer env productId fromUserId toUserId fromRole toRole privateKey details tr).1 =
      { success := true, transactionHash := some th } := by
  unfold recordProductTransfer
  rcases env.getKeyPair privateKey with m | keyPair
  · simp
  · rcases env.handler with _ | handle
    · simp
    · rcases hch : handle (transferTx env keyPair productId fromUserId toUserId details) with m | b
      · simp [hch]
      · rcases b
        · simp [hch]
        · rcases hhw : env.histTransfer productId fromUserId fromRole toUserId toRole details with m | hr
          · simp [hch, hhw]
          · rcases hr with ⟨succ, tid⟩
            rcases tid with _ | tid
            · simp [hch, hhw]
            · by_cases hs : (succ && !(tid == "")) = true <;> simp [hch, hhw, hs]

/-- Every result of `recordProductVerification` has one of the two shapes
`{success := false}` or `{success := true, transactionHash := some th}`. -/
theorem verification_result_shape (env : Env)
    (productId verifierId : String) (verifierRole : UserRole)
    (privateKey : String) (passed : Bool) (details : String) (tr : Trace) :
    (recordProductVerification env productId verifierId verifierRole privateKey passed details tr).1 =
      { success := false } ∨
    ∃ th, (recordProductVerification env productId verifierId verifierRole privateKey passed details tr).1 =
      { success := true, transactionHash := some th } := by
  unfold recordProductVerification
  rcases env.getKeyPair privateKey with m | keyPair
  · simp
  · rcases env.handler with _ | handle
    · simp
    · rcases hch : handle (verificationTx env keyPair productId verifierId passed details) with m | b
      · simp [hch]
      · rcases b
        · simp [hch]
        · rcases hhw : env.histVerify productId verifierId verifierRole passed details with m | hr
          · simp [hch, hhw]
          · rcases hr with ⟨succ, tid⟩
            rcases tid with _ | tid
            · simp [hch, hhw]
            · by_cases hs : (succ && !(tid == "")) = true <;> simp [hch, hhw, hs]

/-- C5: no exception escapes any of the three public operations — the
embedding of each is a total function into the uniform result shape
`{success, transactionHash?}`: every result is `{success := false}` or
`{success := true, transactionHash := some th}`; and each internal
failure (key derivation throw, throwing ledger handler, throwing
History Store write) is converted into `{success := false}` plus one
logged diagnostic. -/
theorem C5_uniform_results_absorb_failures (env : Env) (tr : Trace)
    (productId fromUserId toUserId verifierId privateKey productData vDetails msg : String)
    (fromRole toRole verifierRole : UserRole) (details : TransferDetails) (passed : Bool)
    (keyPair : KeyPair) (handle : SignedTx → Except String Bool) :
    ((recordProductCreation env productId fromUserId privateKey productData tr).1 =
        { success := false } ∨
      ∃ th, (recordProductCreation env productId fromUserId privateKey productData tr).1 =
        { success := true, transactionHash := some th }) ∧
    ((recordProductTransfer env productId fromUserId toUserId fromRole toRole privateKey details tr).1 =
        { success := false } ∨
      ∃ th, (recordProductTransfer env productId fromUserId toUserId fromRole toRole privateKey details tr).1 =
        { success := true, transactionHash := some th }) ∧
    ((recordProductVerification env productId verifierId verifierRole privateKey passed vDetails tr).1 =
        { success := false } ∨
      ∃ th, (recordProductVerification env productId verifierId verifierRole privateKey passed vDetails tr).1 =
        { success := true, transactionHash := some th }) ∧
    (env.getKeyPair privateKey = Except.error msg →
      (recordProductCreation env productId fromUserId privateKey productData tr).1 =
        { success := false } ∧
      ((recordProductCreation env productId fromUserId privateKey productData tr).2).errLogs =
        tr.errLogs + 1 ∧
      (recordProductTransfer env productId fromUserId toUserId fromRole toRole privateKey details tr).1 =
        { success := false } ∧
      ((recordProductTransfer env productId fromUserId toUserId fromRole toRole privateKey details tr).2).errLogs =
        tr.errLogs + 1 ∧
      (recordProductVerification env productId verifierId verifierRole privateKey passed vDetails tr).1 =
        { success := false } ∧
      ((recordProductVerification env productId verifierId verifierRole privateKey passed vDetails tr).2).errLogs =
        tr.errLogs + 1) ∧
    (env.getKeyPair privateKey = Except.ok keyPair → env.handler = some handle →
      (handle (creationTx env keyPair productId productData) = Except.error msg →
        (recordProductCreation env productId fromUserId privateKey productData tr).1 =
          { success := false } ∧
        ((recordProductCreation env productId fromUserId privateKey productData tr).2).errLogs =
          tr.errLogs + 1) ∧
      (handle (transferTx env keyPair productId fromUserId toUserId details) = Except.error msg →
        (recordProductTransfer env productId fromUserId toUserId fromRole toRole privateKey details tr).1 =
          { success := false } ∧
        ((recordProductTransfer env productId fromUserId toUserId fromRole toRole privateKey details tr).2).errLogs =
          tr.errLogs + 1) ∧
      (handle (verificationTx env keyPair productId verifierId passed vDetails) = Except.error msg →
        (recordProductVerification env productId verifierId verifierRole privateKey passed vDetails tr).1 =
          { success := false } ∧
        ((recordProductVerification env productId verifierId verifierRole privateKey passed vDetails tr).2).errLogs =
          tr.errLogs + 1)) ∧
    (env.getKeyPair privateKey = Except.ok keyPair → env.handler = some handle →
      (handle (creationTx env keyPair productId productData) = Except.ok true →
        env.histCreate productId fromUserId productData = Except.error msg →
        (recordProductCreation env productId fromUserId privateKey productData tr).1 =
          { success := false } ∧
        ((recordProductCreation env productId fromUserId privateKey productData tr).2).errLogs =
          tr.errLogs + 1) ∧
      (handle (transferTx env keyPair productId fromUserId toUserId details) = Except.ok true →
        env.histTransfer productId fromUserId fromRole toUserId toRole details = Except.error msg →
        (recordProductTransfer env productId fromUserId toUserId fromRole toRole privateKey details tr).1 =
          { success := false } ∧
        ((recordProductTransfer env productId fromUserId toUserId fromRole toRole privateKey details tr).2).errLogs =
          tr.errLogs + 1) ∧
      (handle (verificationTx env keyPair productId verifierId passed vDetails) = Except.ok true →
        env.histVerify productId verifierId verifierRole passed vDetails = Except.error msg →
        (recordProductVerification env productId verifierId verifierRole privateKey passed vDetails tr).1 =
          { success := false } ∧
        ((recordProductVerification env productId verifierId verifierRole privateKey passed vDetails tr).2).errLogs =
          tr.errLogs + 1)) := by
  refine ⟨creation_result_shape env productId fromUserId privateKey productData tr,
    transfer_result_shape env productId fromUserId toUserId fromRole toRole privateKey details tr,
    verification_result_shape env productId verifierId verifierRole privateKey passed vDetails tr,
    ?_, ?_, ?_⟩
  · intro hk
    unfold recordProductCreation recordProductTransfer recordProductVerification
    simp [hk]
  · intro hk hh
    refine ⟨?_, ?_, ?_⟩ <;> intro hthrow
    · unfold recordProductCreation
      simp [hk, hh, hthrow]
    · unfold recordProductTransfer
      simp [hk, hh, hthrow]
    · unfold recordProductVerification
      simp [hk, hh, hthrow]
  · intro hk hh
    refine ⟨?_, ?_, ?_⟩ <;> intro hacc hthrow
    · unfold recordProductCreation
      simp [hk, hh, hacc, hthrow]
    · unfold recordProductTransfer
      simp [hk, hh, hacc, hthrow]
    · unfold recordProductVerification
      simp [hk, hh, hacc, hthrow]

/-- Witness for C5 at concrete throwing environments: a throwing key
derivation, a throwing handler, and a throwing History Store each yield
`{success := false}` and one error diagnostic. -/
theorem C5_witness :
    ((recordProductCreation envKeyErr "P1" "U1" "K" "D" {}).1 = { success := false } ∧
      ((recordProductCreation envKeyErr "P1" "U1" "K" "D" {}).2).errLogs = 1) ∧
    ((recordProductCreation envHandlerThrow "P1" "U1" "K" "D" {}).1 = { success := false } ∧
      ((recordProductCreation envHandlerThrow "P1" "U1" "K" "D" {}).2).errLogs = 1) ∧
    ((recordProductCreation envHistThrow "P1" "U1" "K" "D" {}).1 = { success := false } ∧
      ((recordProductCreation envHistThrow "P1" "U1" "K" "D" {}).2).errLogs = 1) := by
  have h1 := C5_uniform_results_absorb_failures envKeyErr {} "P1" "U1" "U2" "V1" "K" "D" "VD"
    "bad key material" "PRODUCER" "DISTRIBUTOR" "INSPECTOR" { toPublicKey := none } true
    "KP" (fun _ => Except.ok true)
  have h2 := C5_uniform_results_absorb_failures envHandlerThrow {} "P1" "U1" "U2" "V1" "K" "D" "VD"
    "handler down" "PRODUCER" "DISTRIBUTOR" "INSPECTOR" { toPublicKey := none } true
    "KP" (fun _ => Except.error "handler down")
  have h3 := C5_uniform_results_absorb_failures envHistThrow {} "P1" "U1" "U2" "V1" "K" "D" "VD"
    "store down" "PRODUCER" "DISTRIBUTOR" "INSPECTOR" { toPublicKey := none } true
    "KP" (fun _ => Except.ok true)
  refine ⟨⟨(h1.2.2.2.1 rfl).1, (h1.2.2.2.1 rfl).2.1⟩,
    ⟨((h2.2.2.2.2.1 rfl rfl).1 rfl).1, ((h2.2.2.2.2.1 rfl rfl).1 rfl).2⟩,
    ⟨((h3.2.2.2.2.2 rfl rfl).1 rfl rfl).1, ((h3.2.2.2.2.2 rfl rfl).1 rfl rfl).2⟩⟩

/-- C6: for each of the three public operations, once the ledger handler
accepts and the History Store write succeeds with a non-empty
identifier, the caller-visible result is `{success := true}` with the
transaction hash — for every behaviour of `getTransaction`, including
throwing or finding no record (the reconciliation helper absorbs both);
those two failure modes produce exactly one logged diagnostic. -/
theorem C6_reconciliation_failure_not_surfaced (env : Env) (tr : Trace)
    (productId fromUserId toUserId verifierId privateKey productData vDetails msg : String)
    (fromRole toRole verifierRole : UserRole) (details : TransferDetails) (passed : Bool)
    (keyPair : KeyPair) (handle : SignedTx → Except String Bool)
    (tidC tidT tidV : String)
    (hk : env.getKeyPair privateKey = Except.ok keyPair)
    (hh : env.handler = some handle)
    (hca : handle (creationTx env keyPair productId productData) = Except.ok true)
    (hta : handle (transferTx env keyPair productId fromUserId toUserId details) = Except.ok true)
    (hva : handle (verificationTx env keyPair productId verifierId passed vDetails) = Except.ok true)
    (hwc : env.histCreate productId fromUserId productData =
      Except.ok { success := true, transactionId := some tidC })
    (hwt : env.histTransfer productId fromUserId fromRole toUserId toRole details =
      Except.ok { success := true, transactionId := some tidT })
    (hwv : env.histVerify productId verifierId verifierRole passed vDetails =
      Except.ok { success := true, transactionId := some tidV })
    (htc : ¬ tidC = "") (htt : ¬ tidT = "") (htv : ¬ tidV = "") :
    ((recordProductCreation env productId fromUserId privateKey productData tr).1 =
        { success := true,
          transactionHash := some (env.hashTx (creationTx env keyPair productId productData)) } ∧
      (env.getTransaction tidC = Except.error msg →
        ((recordProductCreation env productId fromUserId privateKey productData tr).2).errLogs =
          tr.errLogs + 1) ∧
      (env.getTransaction tidC = Except.ok none →
        ((recordProductCreation env productId fromUserId privateKey productData tr).2).errLogs =
          tr.errLogs + 1)) ∧
    ((recordProductTransfer env productId fromUserId toUserId fromRole toRole privateKey details tr).1 =
        { success := true,
          transactionHash :=
            some (env.hashTx (transferTx env keyPair productId fromUserId toUserId details)) } ∧
      (env.getTransaction tidT = Except.error msg →
        ((recordProductTransfer env productId fromUserId toUserId fromRole toRole privateKey details tr).2).errLogs =
          tr.errLogs + 1) ∧
      (env.getTransaction tidT = Except.ok none →
        ((recordProductTransfer env productId fromUserId toUserId fromRole toRole privateKey details tr).2).errLogs =
          tr.errLogs + 1)) ∧
    ((recordProductVerification env productId verifierId verifierRole privateKey passed vDetails tr).1 =
        { success := true,
          transactionHash :=
            some (env.hashTx (verificationTx env keyPair productId verifierId passed vDetails)) } ∧
      (env.getTransaction tidV = Except.error msg →
        ((recordProductVerification env productId verifierId verifierRole privateKey passed vDetails tr).2).errLogs =
          tr.errLogs + 1) ∧
      (env.getTransaction tidV = Except.ok none →
        ((recordProductVerification env productId verifierId verifierRole privateKey passed vDetails tr).2).errLogs =
          tr.errLogs + 1)) := by
  refine ⟨⟨?_, ?_, ?_⟩, ⟨?_, ?_, ?_⟩, ⟨?_, ?_, ?_⟩⟩
  · unfold recordProductCreation
    simp [hk, hh, hca, hwc, htc]
  · intro hg
    unfold recordProductCreation updateTransactionWithBlockchainInfo
    simp [hk, hh, hca, hwc, htc, hg]
  · intro hg
    unfold recordProductCreation updateTransactionWithBlockchainInfo
    simp [hk, hh, hca, hwc, htc, hg]
  · unfold recordProductTransfer
    simp [hk, hh, hta, hwt, htt]
  · intro hg
    unfold recordProductTransfer updateTransactionWithBlockchainInfo
    simp [hk, hh, hta, hwt, htt, hg]
  · intro hg
    unfold recordProductTransfer updateTransactionWithBlockchainInfo
    simp [hk, hh, hta, hwt, htt, hg]
  · unfold recordProductVerification
    simp [hk, hh, hva, hwv, htv]
  · intro hg
    unfold recordProductVerification updateTransactionWithBlockchainInfo
    simp [hk, hh, hva, hwv, htv, hg]
  · intro hg
    unfold recordProductVerification updateTransactionWithBlockchainInfo
    simp [hk, hh, hva, hwv, htv, hg]

/-- Witness for C6 at concrete environments in which `getTransaction`
throws, or finds no record: the result is still success with the hash,
and the failure is logged. -/
theorem C6_witness :
    ((recordProductCreation envReconThrow "P1" "U1" "K" "D" {}).1 =
      { success := true, transactionHash := some "HASH" } ∧
      ((recordProductCreation envReconThrow "P1" "U1" "K" "D" {}).2).errLogs = 1) ∧
    ((recordProductCreation envReconMissing "P1" "U1" "K" "D" {}).1 =
      { success := true, transactionHash := some "HASH" } ∧
      ((recordProductCreation envReconMissing "P1" "U1" "K" "D" {}).2).errLogs = 1) := by
  have h1 := C6_reconciliation_failure_not_surfaced envReconThrow {} "P1" "U1" "U2" "V1" "K" "D"
    "VD" "store down" "PRODUCER" "DISTRIBUTOR" "INSPECTOR" { toPublicKey := none } true
    "KP" (fun _ => Except.ok true) "TID" "TID" "TID"
    rfl rfl rfl rfl rfl rfl rfl rfl (by decide) (by decide) (by decide)
  have h2 := C6_reconciliation_failure_not_surfaced envReconMissing {} "P1" "U1" "U2" "V1" "K" "D"
    "VD" "store down" "PRODUCER" "DISTRIBUTOR" "INSPECTOR" { toPublicKey := none } true
    "KP" (fun _ => Except.ok true) "TID" "TID" "TID"
    rfl rfl rfl rfl rfl rfl rfl rfl (by decide) (by decide) (by decide)
  exact ⟨⟨h1.1.1, h1.1.2.1 rfl⟩, ⟨h2.1.1, h2.1.2.2 rfl⟩⟩

/-- With a registered handler, `recordProductCreation` invokes it exactly
once, on the constructed transaction. -/
theorem creation_handlerCalls (env : Env)
    (productId fromUserId privateKey productData : String) (tr : Trace)
    (keyPair : KeyPair) (handle : SignedTx → Except String Bool)
    (hk : env.getKeyPair privateKey = Except.ok keyPair)
    (hh : env.handler = some handle) :
    ((recordProductCreation env productId fromUserId privateKey productData tr).2).handlerCalls =
      tr.handlerCalls ++ [creationTx env keyPair productId productData] := by
  unfold recordProductCreation
  simp only [hk, hh]
  rcases hch : handle (creationTx env keyPair productId productData) with m | b
  · simp [hch]
  · rcases b
    · simp [hch]
    · rcases hhw : env.histCreate productId fromUserId productData with m | hr
      · simp [hch, hhw]
      · rcases hr with ⟨succ, tid⟩
        rcases tid with _ | tid
        · simp [hch, hhw]
        · by_cases hs : (succ && !(tid == "")) = true <;> simp [hch, hhw, hs]

/-- With a registered handler, `recordProductTransfer` invokes it exactly
once, on the constructed transaction. -/
theorem transfer_handlerCalls (env : Env)
    (productId fromUserId toUserId : String) (fromRole toRole : UserRole)
    (privateKey : String) (details : TransferDetails) (tr : Trace)
    (keyPair : KeyPair) (handle : SignedTx → Except String Bool)
    (hk : env.getKeyPair privateKey = Except.ok keyPair)
    (hh : env.handler = some handle) :
    ((recordProductTransfer env productId fromUserId toUserId fromRole toRole privateKey details tr).2).handlerCalls =
      tr.handlerCalls ++ [transferTx env keyPair productId fromUserId toUserId details] := by
  unfold recordProductTransfer
  simp only [hk, hh]
  rcases hch : handle (transferTx env keyPair productId fromUserId toUserId details) with m | b
  · simp [hch]
  · rcases b
    · simp [hch]
    · rcases hhw : env.histTransfer productId fromUserId fromRole toUserId toRole details with m | hr
      · simp [hch, hhw]
      · rcases hr with ⟨succ, tid⟩
        rcases tid with _ | tid
        · simp [hch, hhw]
        · by_cases hs : (succ && !(tid == "")) = true <;> simp [hch, hhw, hs]

/-- With a registered handler, `recordProductVerification` invokes it
exactly once, on the constructed transaction. -/
theorem verification_handlerCalls (env : Env)
    (productId verifierId : String) (verifierRole : UserRole)
    (privateKey : String) (passed : Bool) (details : String) (tr : Trace)
    (keyPair : KeyPair) (handle : SignedTx → Except String Bool)
    (hk : env.getKeyPair privateKey = Except.ok keyPair)
    (hh : env.handler = some handle) :
    ((recordProductVerification env productId verifierId verifierRole privateKey passed details tr).2).handlerCalls =
      tr.handlerCalls ++ [verificationTx env keyPair productId verifierId passed details] := by
  unfold recordProductVerification
  simp only [hk, hh]
  rcases hch : handle (verificationTx env keyPair productId verifierId passed details) with m | b
  · simp [hch]
  · rcases b
    · simp [hch]
    · rcases hhw : env.histVerify productId verifierId verifierRole passed details with m | hr
      · simp [hch, hhw]
      · rcases hr with ⟨succ, tid⟩
        rcases tid with _ | tid
        · simp [hch, hhw]
        · by_cases hs : (succ && !(tid == "")) = true <;> simp [hch, hhw, hs]

/-- C7: the transaction submitted by `recordProductTransfer` carries
`to = details.toPublicKey` when that field is a (truthy) non-empty
string, and otherwise the placeholder
`"default_public_key_for_" ++ toUserId` — for an absent field and for
the falsy empty string alike. -/
theorem C7_transfer_recipient_resolution (env : Env) (tr : Trace)
    (productId fromUserId toUserId privateKey : String) (fromRole toRole : UserRole)
    (details : TransferDetails) (keyPair : KeyPair) (handle : SignedTx → Except String Bool)
    (hk : env.getKeyPair privateKey = Except.ok keyPair)
    (hh : env.handler = some handle) :
    ((recordProductTransfer env productId fromUserId toUserId fromRole toRole privateKey details tr).2).handlerCalls =
      tr.handlerCalls ++ [transferTx env keyPair productId fromUserId toUserId details] ∧
    (transferTx env keyPair productId fromUserId toUserId details).core.txTo =
      resolveToPublicKey details toUserId ∧
    (∀ s, details.toPublicKey = some s → ¬ s = "" →
      resolveToPublicKey details toUserId = s) ∧
    (details.toPublicKey = none →
      resolveToPublicKey details toUserId = "default_public_key_for_" ++ toUserId) ∧
    (details.toPublicKey = some "" →
      resolveToPublicKey details toUserId = "default_public_key_for_" ++ toUserId) := by
  refine ⟨transfer_handlerCalls env productId fromUserId toUserId fromRole toRole
    privateKey details tr keyPair handle hk hh, rfl, ?_, ?_, ?_⟩
  · intro s hsome hne
    unfold resolveToPublicKey
    simp [hsome, hne]
  · intro hnone
    unfold resolveToPublicKey
    simp [hnone]
  · intro hempty
    unfold resolveToPublicKey
    simp [hempty]

/-- Witness for C7: a supplied recipient key is used as `to`; an absent
one yields the deterministic placeholder. -/
theorem C7_witness :
    ((recordProductTransfer envAccept "P1" "U1" "U2" "PRODUCER" "DISTRIBUTOR" "K"
        { toPublicKey := some "PK2" } {}).2).handlerCalls =
      [transferTx envAccept "KP" "P1" "U1" "U2" { toPublicKey := some "PK2" }] ∧
    resolveToPublicKey { toPublicKey := some "PK2" } "U2" = "PK2" ∧
    resolveToPublicKey { toPublicKey := none } "U2" = "default_public_key_for_" ++ "U2" ∧
    resolveToPublicKey { toPublicKey := some "" } "U2" = "default_public_key_for_" ++ "U2" := by
  have h1 := C7_transfer_recipient_resolution envAccept {} "P1" "U1" "U2" "K"
    "PRODUCER" "DISTRIBUTOR" { toPublicKey := some "PK2" } "KP"
    (fun _ => Except.ok true) rfl rfl
  have h2 := C7_transfer_recipient_resolution envAccept {} "P1" "U1" "U2" "K"
    "PRODUCER" "DISTRIBUTOR" { toPublicKey := none } "KP"
    (fun _ => Except.ok true) rfl rfl
  have h3 := C7_transfer_recipient_resolution envAccept {} "P1" "U1" "U2" "K"
    "PRODUCER" "DISTRIBUTOR" { toPublicKey := some "" } "KP"
    (fun _ => Except.ok true) rfl rfl
  exact ⟨h1.1, h1.2.2.1 "PK2" rfl (by decide), h2.2.2.2.1 rfl, h3.2.2.2.2 rfl⟩

/-- C8: the transactions constructed by `recordProductCreation` and
`recordProductVerification` have `from = to`, both equal to the public
key derived from the supplied private key, and each operation submits
exactly that transaction to the handler. -/
theorem C8_creation_verification_self_addressed (env : Env) (tr : Trace)
    (productId fromUserId verifierId privateKey productData vDetails : String)
    (verifierRole : UserRole) (passed : Bool)
    (keyPair : KeyPair) (handle : SignedTx → Except String Bool)
    (hk : env.getKeyPair privateKey = Except.ok keyPair)
    (hh : env.handler = some handle) :
    (creationTx env keyPair productId productData).core.txFrom =
      (creationTx env keyPair productId productData).core.txTo ∧
    (creationTx env keyPair productId productData).core.txFrom = env.pubHex keyPair ∧
    (verificationTx env keyPair productId verifierId passed vDetails).core.txFrom =
      (verificationTx env keyPair productId verifierId passed vDetails).core.txTo ∧
    (verificationTx env keyPair productId verifierId passed vDetails).core.txFrom =
      env.pubHex keyPair ∧
    ((recordProductCreation env productId fromUserId privateKey productData tr).2).handlerCalls =
      tr.handlerCalls ++ [creationTx env keyPair productId productData] ∧
    ((recordProductVerification env productId verifierId verifierRole privateKey passed vDetails tr).2).handlerCalls =
      tr.handlerCalls ++ [verificationTx env keyPair productId verifierId passed vDetails] := by
  exact ⟨rfl, rfl, rfl, rfl,
    creation_handlerCalls env productId fromUserId privateKey productData tr keyPair handle hk hh,
    verification_handlerCalls env productId verifierId verifierRole privateKey passed vDetails tr
      keyPair handle hk hh⟩

/-- Witness for C8 at a concrete accepting environment. -/
theorem C8_witness :
    (creationTx envAccept "KP" "P1" "D").core.txFrom =
      (creationTx envAccept "KP" "P1" "D").core.txTo ∧
    (verificationTx envAccept "KP" "P1" "V1" true "VD").core.txFrom =
      (verificationTx envAccept "KP" "P1" "V1" true "VD").core.txTo ∧
    ((recordProductCreation envAccept "P1" "U1" "K" "D" {}).2).handlerCalls =
      [creationTx envAccept "KP" "P1" "D"] := by
  have h := C8_creation_verification_self_addressed envAccept {} "P1" "U1" "V1" "K" "D" "VD"
    "INSPECTOR" true "KP" (fun _ => Except.ok true) rfl rfl
  exact ⟨h.1, h.2.2.1, h.2.2.2.2.1⟩

/-- C9: within one call of any of the three public operations, the
ledger handler is invoked at most once: each call leaves the list of
handler invocations unchanged or extends it by exactly one
transaction.  In particular a rejection is terminal — no second
invocation happens within the call. -/
theorem C9_handler_invoked_at_most_once (env : Env) (tr : Trace)
    (productId fromUserId toUserId verifierId privateKey productData vDetails : String)
    (fromRole toRole verifierRole : UserRole) (details : TransferDetails) (passed : Bool) :
    (((recordProductCreation env productId fromUserId privateKey productData tr).2).handlerCalls =
        tr.handlerCalls ∨
      ∃ tx, ((recordProductCreation env productId fromUserId privateKey productData tr).2).handlerCalls =
        tr.handlerCalls ++ [tx]) ∧
    (((recordProductTransfer env productId fromUserId toUserId fromRole toRole privateKey details tr).2).handlerCalls =
        tr.handlerCalls ∨
      ∃ tx, ((recordProductTransfer env productId fromUserId toUserId fromRole toRole privateKey details tr).2).handlerCalls =
        tr.handlerCalls ++ [tx]) ∧
    (((recordProductVerification env productId verifierId verifierRole privateKey passed vDetails tr).2).handlerCalls =
        tr.handlerCalls ∨
      ∃ tx, ((recordProductVerification env productId verifierId verifierRole privateKey passed vDetails tr).2).handlerCalls =
        tr.handlerCalls ++ [tx]) := by
  refine ⟨?_, ?_, ?_⟩
  · rcases hgk : env.getKeyPair privateKey with m | keyPair
    · left
      unfold recordProductCreation
      simp [hgk]
    · rcases hh : env.handler with _ | handle
      · left
        unfold recordProductCreation
        simp [hgk, hh]
      · right
        exact ⟨creationTx env keyPair productId productData,
          creation_handlerCalls env productId fromUserId privateKey productData tr
            keyPair handle hgk hh⟩
  · rcases hgk : env.getKeyPair privateKey with m | keyPair
    · left
      unfold recordProductTransfer
      simp [hgk]
    · rcases hh : env.handler with _ | handle
      · left
        unfold recordProductTransfer
        simp [hgk, hh]
      · right
        exact ⟨transferTx env keyPair productId fromUserId toUserId details,
          transfer_handlerCalls env productId fromUserId toUserId fromRole toRole
            privateKey details tr keyPair handle hgk hh⟩
  · rcases hgk : env.getKeyPair privateKey with m | keyPair
    · left
      unfold recordProductVerification
      simp [hgk]
    · rcases hh : env.handler with _ | handle
      · left
        unfold recordProductVerification
        simp [hgk, hh]
      · right
        exact ⟨verificationTx env keyPair productId verifierId passed vDetails,
          verification_handlerCalls env productId verifierId verifierRole privateKey
            passed vDetails tr keyPair handle hgk hh⟩

/-- C10: although the declared result type permits a `blockHash` field,
no code path of any of the three public operations populates it: every
result has `blockHash = none`. -/
theorem C10_result_blockHash_never_populated (env : Env) (tr : Trace)
    (productId fromUserId toUserId verifierId privateKey productData vDetails : String)
    (fromRole toRole verifierRole : UserRole) (details : TransferDetails) (passed : Bool) :
    (recordProductCreation env productId fromUserId privateKey productData tr).1.blockHash = none ∧
    (recordProductTransfer env productId fromUserId toUserId fromRole toRole privateKey details tr).1.blockHash = none ∧
    (recordProductVerification env productId verifierId verifierRole privateKey passed vDetails tr).1.blockHash = none := by
  refine ⟨?_, ?_, ?_⟩
  · rcases creation_result_shape env productId fromUserId privateKey productData tr with
      h | ⟨th, h⟩ <;> simp [h]
  · rcases transfer_result_shape env productId fromUserId toUserId fromRole toRole
      privateKey details tr with h | ⟨th, h⟩ <;> simp [h]
  · rcases verification_result_shape env productId verifierId verifierRole privateKey
      passed vDetails tr with h | ⟨th, h⟩ <;> simp [h]

end AgriChain
